import Mathlib

/-
  Verification development for the snowball game core.

  Shallow embedding of:
  - the terrain height field and normal query (Terrain.ts),
  - the local ball kinematic integrator and collision responses (Ball.ts),
  - the remote proxy ball interpolation and network receive path
    (RemoteBall.ts, Game.ts).

  JavaScript numbers are modelled as real numbers; Math.exp, Math.sqrt and
  Math.pow with exponent 0.5 are modelled by Real.exp and Real.sqrt.  The
  network receive path, where NaN propagation matters and no arithmetic is
  performed, is modelled separately over a type of JavaScript numeric
  values that includes NaN.
-/

namespace Snowball

/-- A 3-component vector over the reals, mirroring THREE.Vector3. -/
@[ext]
structure Vec3 where
  x : ℝ
  y : ℝ
  z : ℝ

namespace Vec3

instance : Add Vec3 := ⟨fun a b => ⟨a.x + b.x, a.y + b.y, a.z + b.z⟩⟩
instance : Sub Vec3 := ⟨fun a b => ⟨a.x - b.x, a.y - b.y, a.z - b.z⟩⟩

/-- THREE.Vector3.multiplyScalar. -/
def smul (v : Vec3) (c : ℝ) : Vec3 := ⟨v.x * c, v.y * c, v.z * c⟩

/-- THREE.Vector3.dot. -/
def dot (a b : Vec3) : ℝ := a.x * b.x + a.y * b.y + a.z * b.z

/-- THREE.Vector3.lengthSq. -/
def lengthSq (v : Vec3) : ℝ := v.x * v.x + v.y * v.y + v.z * v.z

/-- THREE.Vector3.length. -/
noncomputable def norm (v : Vec3) : ℝ := Real.sqrt v.lengthSq

/-- THREE.Vector3.normalize: divides by the length, or by 1 when the
length is zero (divideScalar with `length or 1`). -/
noncomputable def normalize (v : Vec3) : Vec3 :=
  if v.norm = 0 then v else ⟨v.x / v.norm, v.y / v.norm, v.z / v.norm⟩

@[simp] lemma add_x (a b : Vec3) : (a + b).x = a.x + b.x := rfl
@[simp] lemma add_y (a b : Vec3) : (a + b).y = a.y + b.y := rfl
@[simp] lemma add_z (a b : Vec3) : (a + b).z = a.z + b.z := rfl
@[simp] lemma sub_x (a b : Vec3) : (a - b).x = a.x - b.x := rfl
@[simp] lemma sub_y (a b : Vec3) : (a - b).y = a.y - b.y := rfl
@[simp] lemma sub_z (a b : Vec3) : (a - b).z = a.z - b.z := rfl
@[simp] lemma smul_x (v : Vec3) (c : ℝ) : (v.smul c).x = v.x * c := rfl
@[simp] lemma smul_y (v : Vec3) (c : ℝ) : (v.smul c).y = v.y * c := rfl
@[simp] lemma smul_z (v : Vec3) (c : ℝ) : (v.smul c).z = v.z * c := rfl

lemma lengthSq_nonneg (v : Vec3) : 0 ≤ v.lengthSq := by
  have hx := mul_self_nonneg v.x
  have hy := mul_self_nonneg v.y
  have hz := mul_self_nonneg v.z
  unfold lengthSq; linarith

lemma norm_nonneg (v : Vec3) : 0 ≤ v.norm := Real.sqrt_nonneg _

lemma norm_sq (v : Vec3) : v.norm * v.norm = v.lengthSq :=
  Real.mul_self_sqrt v.lengthSq_nonneg

lemma dot_self (v : Vec3) : v.dot v = v.lengthSq := rfl

/-- Adding a scaled vector shifts the dot product linearly
(THREE.Vector3.addScaledVector followed by dot). -/
lemma dot_add_smul (a b d : Vec3) (c : ℝ) :
    (a + b.smul c).dot d = a.dot d + c * b.dot d := by
  simp only [dot, add_x, add_y, add_z, smul_x, smul_y, smul_z]
  ring

lemma smul_sub_dist (a b : Vec3) (c : ℝ) :
    (a - b).smul c = a.smul c - b.smul c := by
  ext <;> simp [smul] <;> ring

lemma norm_smul (v : Vec3) (c : ℝ) : (v.smul c).norm = |c| * v.norm := by
  unfold norm lengthSq
  have h : (v.smul c).x * (v.smul c).x + (v.smul c).y * (v.smul c).y
      + (v.smul c).z * (v.smul c).z
      = (c * c) * (v.x * v.x + v.y * v.y + v.z * v.z) := by
    simp only [smul_x, smul_y, smul_z]; ring
  rw [h, Real.sqrt_mul (mul_self_nonneg c)]
  congr 1
  rw [← Real.sqrt_mul_self (abs_nonneg c), abs_mul_abs_self]

end Vec3

/-! ## Terrain (Terrain.ts) -/

/-- Gaussian bump: `height * exp(-((x-cx)^2/rx^2 + (z-cz)^2/rz^2))`. -/
noncomputable def gaussian (x z cx cz rx rz h : ℝ) : ℝ :=
  let dx := (x - cx) / rx
  let dz := (z - cz) / rz
  h * Real.exp (-(dx * dx + dz * dz))

/-- Terrain.getHeight: sum of five Gaussian bumps. -/
noncomputable def getHeight (x z : ℝ) : ℝ :=
  gaussian x z 40 50 36 36 12
  + gaussian x z (-40) (-30) 20 20 4
  + gaussian x z 30 (-50) 16 16 3
  + gaussian x z (-50) 40 24 24 5
  + gaussian x z (-20) 20 16 6 6

/-- Terrain.getNormalAt: symmetric finite differences with step 0.1,
pre-normalization vector has y component 1, then normalized. -/
noncomputable def getNormalAt (x z : ℝ) : Vec3 :=
  let eps : ℝ := 0.1
  let hL := getHeight (x - eps) z
  let hR := getHeight (x + eps) z
  let hD := getHeight x (z - eps)
  let hU := getHeight x (z + eps)
  Vec3.normalize ⟨(hL - hR) / (2 * eps), 1, (hD - hU) / (2 * eps)⟩

/-- Helper: a vector whose y component is 1 has norm at least 1, hence
nonzero; normalizing it yields a unit vector with positive y. -/
lemma normalize_y_one (a b : ℝ) :
    (Vec3.normalize ⟨a, 1, b⟩).norm = 1 ∧ 0 < (Vec3.normalize ⟨a, 1, b⟩).y := by
  set v : Vec3 := ⟨a, 1, b⟩ with hv
  have hsq : (1 : ℝ) ≤ v.lengthSq := by
    have ha := mul_self_nonneg a
    have hb := mul_self_nonneg b
    simp only [hv, Vec3.lengthSq]
    linarith
  have hn1 : (1 : ℝ) ≤ v.norm := by
    have := Real.sqrt_le_sqrt hsq
    simpa [Vec3.norm, Real.sqrt_one] using this
  have hn0 : v.norm ≠ 0 := by linarith
  have hnpos : 0 < v.norm := by linarith
  have hform : Vec3.normalize v = ⟨v.x / v.norm, v.y / v.norm, v.z / v.norm⟩ := by
    unfold Vec3.normalize
    rw [if_neg hn0]
  constructor
  · rw [hform]
    have hdiv : (⟨v.x / v.norm, v.y / v.norm, v.z / v.norm⟩ : Vec3)
        = v.smul (v.norm)⁻¹ := by
      ext <;> simp [Vec3.smul, div_eq_mul_inv]
    rw [hdiv, Vec3.norm_smul, abs_inv, abs_of_pos hnpos,
      inv_mul_cancel₀ hn0]
  · rw [hform]
    show 0 < v.y / v.norm
    have : v.y = 1 := rfl
    rw [this]
    positivity

/-- Claim C9: for all coordinates (x, z), Terrain.getNormalAt returns a
unit vector whose y component is strictly positive, since the vector
before normalization always has y = 1. -/
theorem C9_normal_unit_positive_y (x z : ℝ) :
    (getNormalAt x z).norm = 1 ∧ 0 < (getNormalAt x z).y := by
  unfold getNormalAt
  exact normalize_y_one _ _

/-! ## Ball (Ball.ts) — kinematic state and per-step update

The embedding keeps the kinematic fields of the Ball class: position,
planar velocity, vertical velocity, grounded flag, radius, the wobble
fields and the collected counter.  Purely visual state (the lumpy mesh,
the rolling rotation of the rotator group, the snow trail particles) is
not modelled: no claim refers to it and it feeds back into nothing. -/

/-- Result of a ground query, as produced by Terrain.getGroundInfo. -/
structure GroundInfo where
  height : ℝ
  normal : Vec3

/-- The injected terrain capability (types.ts GroundQuery). -/
abbrev GroundQuery := ℝ → ℝ → GroundInfo

/-- Ball field: gravity = -25. -/
noncomputable def gravity : ℝ := -25
/-- Ball field: baseSpeed = 40. -/
noncomputable def baseSpeed : ℝ := 40
/-- Ball field: damping = 5. -/
noncomputable def damping : ℝ := 5
/-- Ball field: startRadius = 0.5. -/
noncomputable def startRadius : ℝ := 0.5
/-- Ball field: bounds = 48. -/
noncomputable def ballBounds : ℝ := 48
/-- Local constant slopeMult = 2.5 in Ball.update. -/
noncomputable def slopeMult : ℝ := 2.5

/-- Kinematic state of the local ball. -/
structure BallState where
  pos : Vec3
  velocity : Vec3
  yVelocity : ℝ
  grounded : Bool
  radius : ℝ
  wobbleAngle : ℝ
  wobbleDecay : ℝ
  collectedCount : ℕ

/-- Ball.update step 1: `moveSpeed = baseSpeed * Math.pow(startRadius / radius, 0.5)`. -/
noncomputable def moveSpeedOf (radius : ℝ) : ℝ :=
  baseSpeed * Real.sqrt (startRadius / radius)

/-- Ball.update input force: when the direction is meaningfully nonzero
(`lengthSq > 0.001`), the x and z velocity components gain
`direction * moveSpeed * delta`. -/
noncomputable def velAfterInput (s : BallState) (direction : Vec3) (delta : ℝ) : Vec3 :=
  if 0.001 < direction.lengthSq then
    { s.velocity with
        x := s.velocity.x + direction.x * moveSpeedOf s.radius * delta
        z := s.velocity.z + direction.z * moveSpeedOf s.radius * delta }
  else s.velocity

/-- Ball.update slope physics: when grounded, gravity is decomposed
along the queried normal; the tangential remainder accelerates the ball,
scaled by slopeMult.  The query uses the pre-integration position. -/
noncomputable def velAfterSlope (s : BallState) (direction : Vec3) (delta : ℝ)
    (q : GroundQuery) : Vec3 :=
  let v := velAfterInput s direction delta
  let groundInfo := q s.pos.x s.pos.z
  if s.grounded then
    let normal := groundInfo.normal
    let gravVec : Vec3 := ⟨0, gravity, 0⟩
    let normalForce := normal.smul (gravVec.dot normal)
    let slopeForce := gravVec - normalForce
    { v with
        x := v.x + slopeForce.x * slopeMult * delta
        z := v.z + slopeForce.z * slopeMult * delta }
  else v

/-- Ball.update wobble bookkeeping: while wobbleDecay is positive it
shrinks by 4*delta (floored at 0) and wobbleAngle advances by 20*delta.
The tilt written to the pivot rotation is visual only. -/
noncomputable def wobbleStep (s : BallState) (delta : ℝ) : BallState :=
  if 0 < s.wobbleDecay then
    { s with
        wobbleDecay := max (s.wobbleDecay - delta * 4) 0
        wobbleAngle := s.wobbleAngle + delta * 20 }
  else s

/-- Ball.update through vertical resolution and wobble, before the
bounds clamp: damping, planar integration, grounded snap or airborne
gravity with landing test, then wobble bookkeeping. -/
noncomputable def updateCore (s : BallState) (direction : Vec3) (delta : ℝ)
    (q : GroundQuery) : BallState :=
  let vel1 := velAfterSlope s direction delta q
  let dampFactor := Real.exp (-damping * delta)
  let vel2 := vel1.smul dampFactor
  let px := s.pos.x + vel2.x * delta
  let pz := s.pos.z + vel2.z * delta
  if s.grounded then
    -- grounded: bypass vertical gravity, snap to the terrain surface
    let groundY := (q px pz).height + s.radius
    wobbleStep { s with velocity := vel2, pos := ⟨px, groundY, pz⟩, yVelocity := 0 } delta
  else
    -- airborne: vertical gravity, then ground-hit test
    let yVel := s.yVelocity + gravity * delta
    let py := s.pos.y + yVel * delta
    let groundY := (q px pz).height + s.radius
    if py ≤ groundY then
      if yVel < -1 then
        -- small bounce on landing, still airborne
        wobbleStep
          { s with
              velocity := vel2
              pos := ⟨px, groundY, pz⟩
              yVelocity := -yVel * 0.2 } delta
      else
        wobbleStep
          { s with
              velocity := vel2
              pos := ⟨px, groundY, pz⟩
              yVelocity := 0
              grounded := true } delta
    else
      wobbleStep
        { s with
            velocity := vel2
            pos := ⟨px, py, pz⟩
            yVelocity := yVel } delta

/-- Ball.update final clamp of x and z to [-bounds, bounds]
(THREE.MathUtils.clamp = max lo (min hi value)). -/
noncomputable def clampPlanar (s : BallState) : BallState :=
  { s with pos := ⟨max (-ballBounds) (min ballBounds s.pos.x), s.pos.y,
      max (-ballBounds) (min ballBounds s.pos.z)⟩ }

/-- Ball.update: one full simulation step. -/
noncomputable def update (s : BallState) (direction : Vec3) (delta : ℝ)
    (q : GroundQuery) : BallState :=
  clampPlanar (updateCore s direction delta q)

/-- Ball.stumble.  The two sources of randomness in the soft branch —
`Math.random() * PI` for the wobble angle and the coin flip for the side
nudge — are passed in as the parameters randAngle and sidePositive. -/
noncomputable def stumble (s : BallState) (direction : Vec3) (overlap itemSize : ℝ)
    (randAngle : ℝ) (sidePositive : Bool) : BallState :=
  let speed := s.velocity.norm
  if 3 < itemSize / (s.radius * 2) then
    -- way too big: hard stop, strong bounce back
    let d := s.velocity.dot direction
    let v1 := if d < 0 then s.velocity + direction.smul (-d * 1.5) else s.velocity
    let s1 :=
      { s with
          velocity := v1
          pos := s.pos + direction.smul (overlap + 0.01)
          wobbleDecay := min (speed * 0.3) 1.5
          wobbleAngle := 0 }
    if s.grounded = true ∧ 1 < speed then
      { s1 with yVelocity := min (speed * 0.5) 4, grounded := false }
    else s1
  else
    -- slightly too big: stumble over it like a speed bump
    let hopStrength := min (speed * 0.8) 6
    let s1 :=
      if s.grounded then { s with yVelocity := hopStrength, grounded := false } else s
    let v1 := s1.velocity.smul 0.6
    let side : Vec3 := ⟨-direction.z, 0, direction.x⟩
    let v2 := v1 + side.smul (speed * 0.2 * (if sidePositive then 1 else -1))
    { s1 with
        velocity := v2
        wobbleDecay := min (speed * 0.2) 1.0
        wobbleAngle := randAngle
        pos := s.pos + direction.smul (overlap * 0.5 + 0.01) }

/-- Ball.pushBack: cancel the inward velocity component with coefficient
1.5 and push the position out of the overlap. -/
noncomputable def pushBack (s : BallState) (direction : Vec3) (overlap : ℝ) : BallState :=
  let d := s.velocity.dot direction
  let v1 := if d < 0 then s.velocity + direction.smul (-d * 1.5) else s.velocity
  { s with
      velocity := v1
      pos := s.pos + direction.smul (overlap + 0.01) }

/-- Ball.grow: radius += itemSize * 0.08, and y is re-anchored to at
least the new radius. -/
noncomputable def grow (s : BallState) (itemSize : ℝ) : BallState :=
  let r := s.radius + itemSize * 0.08
  { s with
      radius := r
      pos := { s.pos with y := max s.pos.y r } }

/-- Ball.attachItem: reparents the item mesh (visual, not modelled),
then grows and bumps the collected counter. -/
noncomputable def attachItem (s : BallState) (itemSize : ℝ) : BallState :=
  let s1 := grow s itemSize
  { s1 with collectedCount := s1.collectedCount + 1 }

/-- One externally-triggered operation on the local ball. -/
inductive BallOp where
  | upd (direction : Vec3) (delta : ℝ) (q : GroundQuery)
  | stum (direction : Vec3) (overlap itemSize randAngle : ℝ) (sidePositive : Bool)
  | push (direction : Vec3) (overlap : ℝ)
  | attach (itemSize : ℝ)

/-- Apply one operation to the ball state. -/
noncomputable def applyOp (s : BallState) : BallOp → BallState
  | .upd d δ q => update s d δ q
  | .stum d o sz a sp => stumble s d o sz a sp
  | .push d o => pushBack s d o
  | .attach sz => attachItem s sz

/-- An operation is well-formed when any collected item has a
non-negative size (the only constraint the claims need). -/
def opOK : BallOp → Prop
  | .attach sz => 0 ≤ sz
  | _ => True

lemma radius_wobbleStep (s : BallState) (delta : ℝ) :
    (wobbleStep s delta).radius = s.radius := by
  unfold wobbleStep; split <;> rfl

lemma radius_updateCore (s : BallState) (d : Vec3) (δ : ℝ) (q : GroundQuery) :
    (updateCore s d δ q).radius = s.radius := by
  unfold updateCore
  dsimp only
  split_ifs <;> rw [radius_wobbleStep]

lemma radius_update (s : BallState) (d : Vec3) (δ : ℝ) (q : GroundQuery) :
    (update s d δ q).radius = s.radius := by
  unfold update clampPlanar
  exact radius_updateCore s d δ q

lemma radius_stumble (s : BallState) (d : Vec3) (o sz a : ℝ) (sp : Bool) :
    (stumble s d o sz a sp).radius = s.radius := by
  unfold stumble
  dsimp only
  split_ifs <;> rfl

lemma radius_pushBack (s : BallState) (d : Vec3) (o : ℝ) :
    (pushBack s d o).radius = s.radius := rfl

lemma radius_attachItem (s : BallState) (sz : ℝ) :
    (attachItem s sz).radius = s.radius + sz * 0.08 := rfl

lemma radius_applyOp (s : BallState) (op : BallOp) (h : opOK op) :
    s.radius ≤ (applyOp s op).radius := by
  cases op with
  | upd d δ q => rw [applyOp, radius_update]
  | stum d o sz a sp => rw [applyOp, radius_stumble]
  | push d o => rw [applyOp, radius_pushBack]
  | attach sz =>
    have hsz : (0 : ℝ) ≤ sz := h
    have : (0 : ℝ) ≤ sz * 0.08 := by nlinarith
    rw [applyOp, radius_attachItem]
    linarith

/-- Claim C6: the radius is monotonically non-decreasing across every
sequence of update, stumble, pushBack and attachItem operations,
provided every collected item has non-negative size; only attachItem
(via grow) changes the radius, adding itemSize * 0.08 which is
non-negative. -/
theorem C6_radius_monotone (ops : List BallOp) (s : BallState)
    (h : ∀ op ∈ ops, opOK op) :
    s.radius ≤ (ops.foldl applyOp s).radius := by
  induction ops generalizing s with
  | nil => simp
  | cons op rest ih =>
    have h1 : opOK op := h op (List.mem_cons_self _ _)
    have h2 : ∀ o ∈ rest, opOK o := fun o ho => h o (List.mem_cons_of_mem _ ho)
    calc s.radius ≤ (applyOp s op).radius := radius_applyOp s op h1
      _ ≤ (rest.foldl applyOp (applyOp s op)).radius := ih _ h2

/-- Flat ground query used for concrete instances. -/
noncomputable def flatQuery : GroundQuery := fun _ _ => ⟨0, ⟨0, 1, 0⟩⟩

/-- A concrete ball state matching the initial Ball fields. -/
noncomputable def initialBall : BallState :=
  ⟨⟨0, 0.5, 8⟩, ⟨0, 0, 0⟩, 0, true, 0.5, 0, 0, 0⟩

/-- A concrete operation sequence exercising every operation kind. -/
noncomputable def sampleOps : List BallOp :=
  [BallOp.attach 1, BallOp.push ⟨1, 0, 0⟩ 0.2,
   BallOp.stum ⟨1, 0, 0⟩ 0.1 3 0 true, BallOp.upd ⟨0, 0, 0⟩ 0 flatQuery,
   BallOp.attach 0]

theorem C6_radius_monotone_witness :
    (∀ op ∈ sampleOps, opOK op) ∧
    initialBall.radius ≤ (sampleOps.foldl applyOp initialBall).radius := by
  have h : ∀ op ∈ sampleOps, opOK op := by
    intro op hop
    simp only [sampleOps, List.mem_cons, List.not_mem_nil, or_false] at hop
    rcases hop with h | h | h | h | h <;> subst h <;> simp [opOK]
  exact ⟨h, C6_radius_monotone sampleOps initialBall h⟩

/-- Claim C5: whenever Ball.stumble takes the hard-stumble branch
(sizeRatio strictly greater than 3) with a unit-length push direction,
the velocity immediately after the call has non-negative dot product
with that direction — the ball never keeps moving into the obstacle. -/
theorem C5_hard_stumble_outward (s : BallState) (direction : Vec3)
    (overlap itemSize randAngle : ℝ) (sp : Bool)
    (hunit : direction.norm = 1)
    (hhard : 3 < itemSize / (s.radius * 2)) :
    0 ≤ ((stumble s direction overlap itemSize randAngle sp).velocity).dot direction := by
  have hdd : direction.dot direction = 1 := by
    have h := direction.norm_sq
    rw [hunit, one_mul] at h
    rw [Vec3.dot_self, ← h]
  unfold stumble
  dsimp only
  rw [if_pos hhard]
  split_ifs <;>
    simp only [Vec3.dot_add_smul, hdd, mul_one] <;>
    linarith

/-- Concrete pre-state: a half-radius ball rolling in the negative x
direction at speed 2. -/
noncomputable def inwardBall : BallState :=
  ⟨⟨0, 0.5, 8⟩, ⟨-2, 0, 0⟩, 0, true, 0.5, 0, 0, 0⟩

theorem C5_hard_stumble_outward_witness :
    (Vec3.norm ⟨1, 0, 0⟩ = 1 ∧ 3 < (4 : ℝ) / (inwardBall.radius * 2)) ∧
    0 ≤ ((stumble inwardBall ⟨1, 0, 0⟩ 0.1 4 0 true).velocity).dot ⟨1, 0, 0⟩ := by
  have hunit : Vec3.norm ⟨1, 0, 0⟩ = 1 := by
    unfold Vec3.norm Vec3.lengthSq
    norm_num
  have hhard : 3 < (4 : ℝ) / (inwardBall.radius * 2) := by
    unfold inwardBall
    norm_num
  exact ⟨⟨hunit, hhard⟩,
    C5_hard_stumble_outward inwardBall ⟨1, 0, 0⟩ 0.1 4 0 true hunit hhard⟩

/-- The spec formula for the player input acceleration, written with the
rpow of the spec text: baseSpeed * (radius0 / radius) ^ 0.5 * delta per
unit of direction. -/
noncomputable def specInputAccel (radius delta : ℝ) : ℝ :=
  baseSpeed * (startRadius / radius) ^ (0.5 : ℝ) * delta

/-- Claim C4: the acceleration applied from the direction input equals
baseSpeed * (radius0/radius)^0.5 * delta per unit of direction, and it
strictly decreases as the radius grows above radius0; the slope-gravity
contribution added when grounded does not depend on the radius: two
balls at the same position with the same grounded flag receive an
identical slope velocity increment whatever their radii. -/
theorem C4_input_scaling_slope_size_free (s₁ s₂ : BallState) (direction : Vec3)
    (δ r₁ r₂ : ℝ) (q : GroundQuery)
    (hdir : 0.001 < direction.lengthSq)
    (hr0 : startRadius < r₁) (hr12 : r₁ < r₂) (hδ : 0 < δ)
    (hpos : s₁.pos = s₂.pos) (hgr : s₁.grounded = s₂.grounded) :
    velAfterInput s₁ direction δ =
      ⟨s₁.velocity.x + direction.x * specInputAccel s₁.radius δ,
       s₁.velocity.y,
       s₁.velocity.z + direction.z * specInputAccel s₁.radius δ⟩ ∧
    specInputAccel r₂ δ < specInputAccel r₁ δ ∧
    velAfterSlope s₁ direction δ q - velAfterInput s₁ direction δ =
      velAfterSlope s₂ direction δ q - velAfterInput s₂ direction δ := by
  refine ⟨?_, ?_, ?_⟩
  · unfold velAfterInput specInputAccel moveSpeedOf
    rw [if_pos hdir]
    have hs : Real.sqrt (startRadius / s₁.radius)
        = (startRadius / s₁.radius) ^ (0.5 : ℝ) := by
      rw [Real.sqrt_eq_rpow]; norm_num
    ext <;> simp [hs] <;> ring
  · unfold specInputAccel
    have h0 : (0 : ℝ) < startRadius := by unfold startRadius; norm_num
    have h1 : (0 : ℝ) < r₁ := lt_trans h0 hr0
    have hdiv : startRadius / r₂ < startRadius / r₁ :=
      div_lt_div_of_pos_left h0 h1 hr12
    have h2 : (0 : ℝ) < r₂ := lt_trans h1 hr12
    have hnn : (0 : ℝ) ≤ startRadius / r₂ := div_nonneg h0.le h2.le
    have hrp : (startRadius / r₂) ^ (0.5 : ℝ) < (startRadius / r₁) ^ (0.5 : ℝ) :=
      Real.rpow_lt_rpow hnn hdiv (by norm_num)
    have hbs : (0 : ℝ) < baseSpeed := by unfold baseSpeed; norm_num
    exact mul_lt_mul_of_pos_right (mul_lt_mul_of_pos_left hrp hbs) hδ
  · have hq : q s₁.pos.x s₁.pos.z = q s₂.pos.x s₂.pos.z := by rw [hpos]
    unfold velAfterSlope
    dsimp only
    rw [hq, hgr]
    by_cases hg : s₂.grounded = true
    · rw [if_pos hg, if_pos hg]
      ext <;> dsimp <;> ring
    · rw [if_neg hg, if_neg hg]
      ext <;> dsimp <;> ring

/-- The initial ball after enough growth to double its radius. -/
noncomputable def doubledBall : BallState := { initialBall with radius := 1 }

theorem C4_input_scaling_slope_size_free_witness :
    ((0.001 : ℝ) < Vec3.lengthSq ⟨1, 0, 0⟩ ∧ startRadius < 1 ∧ (1 : ℝ) < 2 ∧
      (0 : ℝ) < 1 ∧ initialBall.pos = doubledBall.pos ∧
      initialBall.grounded = doubledBall.grounded) ∧
    (velAfterInput initialBall ⟨1, 0, 0⟩ 1 =
      ⟨initialBall.velocity.x + (⟨1, 0, 0⟩ : Vec3).x * specInputAccel initialBall.radius 1,
       initialBall.velocity.y,
       initialBall.velocity.z + (⟨1, 0, 0⟩ : Vec3).z * specInputAccel initialBall.radius 1⟩ ∧
     specInputAccel 2 1 < specInputAccel 1 1 ∧
     velAfterSlope initialBall ⟨1, 0, 0⟩ 1 flatQuery -
         velAfterInput initialBall ⟨1, 0, 0⟩ 1 =
       velAfterSlope doubledBall ⟨1, 0, 0⟩ 1 flatQuery -
         velAfterInput doubledBall ⟨1, 0, 0⟩ 1) := by
  have hdir : (0.001 : ℝ) < Vec3.lengthSq ⟨1, 0, 0⟩ := by
    unfold Vec3.lengthSq; norm_num
  have hr0 : startRadius < (1 : ℝ) := by unfold startRadius; norm_num
  have hr12 : (1 : ℝ) < 2 := by norm_num
  have hδ : (0 : ℝ) < 1 := by norm_num
  have hpos : initialBall.pos = doubledBall.pos := rfl
  have hgr : initialBall.grounded = doubledBall.grounded := rfl
  exact ⟨⟨hdir, hr0, hr12, hδ, hpos, hgr⟩,
    C4_input_scaling_slope_size_free initialBall doubledBall ⟨1, 0, 0⟩ 1 1 2
      flatQuery hdir hr0 hr12 hδ hpos hgr⟩

lemma wobbleStep_pos (s : BallState) (delta : ℝ) :
    (wobbleStep s delta).pos = s.pos := by
  unfold wobbleStep; split <;> rfl

lemma wobbleStep_grounded (s : BallState) (delta : ℝ) :
    (wobbleStep s delta).grounded = s.grounded := by
  unfold wobbleStep; split <;> rfl

/-- Core of claim C1: at the end of updateCore (before the bounds
clamp), a grounded ball sits exactly at terrain height plus radius,
queried at the pre-clamp planar coordinates. -/
lemma updateCore_grounded_snap (s : BallState) (direction : Vec3) (δ : ℝ)
    (q : GroundQuery)
    (hg : (updateCore s direction δ q).grounded = true) :
    (updateCore s direction δ q).pos.y =
      (q (updateCore s direction δ q).pos.x (updateCore s direction δ q).pos.z).height
        + (updateCore s direction δ q).radius := by
  unfold updateCore at hg ⊢
  dsimp only at hg ⊢
  split_ifs at hg ⊢ with h1 h2 h3
  all_goals simp only [wobbleStep_pos, wobbleStep_grounded, radius_wobbleStep] at hg ⊢
  all_goals first
    | rfl
    | exact absurd hg h1

/-- Claim C1 (amended): if grounded is true at the end of Ball.update,
then position.y equals groundQuery height plus radius at the planar
coordinates computed before the bounds clamp; whenever those pre-clamp
coordinates already lie within [-48, 48] (so the clamp is a no-op, the
situation of every in-bounds step) the equation also holds at the final
coordinates, as the original claim states. -/
theorem C1_grounded_snap (s : BallState) (direction : Vec3) (δ : ℝ)
    (q : GroundQuery)
    (hx1 : -ballBounds ≤ (updateCore s direction δ q).pos.x)
    (hx2 : (updateCore s direction δ q).pos.x ≤ ballBounds)
    (hz1 : -ballBounds ≤ (updateCore s direction δ q).pos.z)
    (hz2 : (updateCore s direction δ q).pos.z ≤ ballBounds)
    (hg : (update s direction δ q).grounded = true) :
    (update s direction δ q).pos.y =
      (q (update s direction δ q).pos.x (update s direction δ q).pos.z).height
        + (update s direction δ q).radius := by
  have hcx : (update s direction δ q).pos.x = (updateCore s direction δ q).pos.x := by
    show max (-ballBounds) (min ballBounds (updateCore s direction δ q).pos.x) = _
    rw [min_eq_right hx2, max_eq_right hx1]
  have hcz : (update s direction δ q).pos.z = (updateCore s direction δ q).pos.z := by
    show max (-ballBounds) (min ballBounds (updateCore s direction δ q).pos.z) = _
    rw [min_eq_right hz2, max_eq_right hz1]
  have hg' : (updateCore s direction δ q).grounded = true := hg
  show (updateCore s direction δ q).pos.y =
    (q (update s direction δ q).pos.x (update s direction δ q).pos.z).height
      + (updateCore s direction δ q).radius
  rw [hcx, hcz]
  exact updateCore_grounded_snap s direction δ q hg'

theorem C1_grounded_snap_witness :
    (-ballBounds ≤ (updateCore initialBall ⟨0, 0, 0⟩ 0 flatQuery).pos.x ∧
     (updateCore initialBall ⟨0, 0, 0⟩ 0 flatQuery).pos.x ≤ ballBounds ∧
     -ballBounds ≤ (updateCore initialBall ⟨0, 0, 0⟩ 0 flatQuery).pos.z ∧
     (updateCore initialBall ⟨0, 0, 0⟩ 0 flatQuery).pos.z ≤ ballBounds ∧
     (update initialBall ⟨0, 0, 0⟩ 0 flatQuery).grounded = true) ∧
    (update initialBall ⟨0, 0, 0⟩ 0 flatQuery).pos.y =
      (flatQuery (update initialBall ⟨0, 0, 0⟩ 0 flatQuery).pos.x
        (update initialBall ⟨0, 0, 0⟩ 0 flatQuery).pos.z).height
        + (update initialBall ⟨0, 0, 0⟩ 0 flatQuery).radius := by
  have hcore : updateCore initialBall ⟨0, 0, 0⟩ 0 flatQuery =
      ⟨⟨0, 0.5, 8⟩, ⟨0, 0, 0⟩, 0, true, 0.5, 0, 0, 0⟩ := by
    unfold updateCore velAfterSlope velAfterInput wobbleStep moveSpeedOf
      initialBall flatQuery gravity baseSpeed damping startRadius slopeMult
    norm_num [Vec3.lengthSq, Vec3.smul, Vec3.dot, Real.exp_zero]
  have hx1 : -ballBounds ≤ (updateCore initialBall ⟨0, 0, 0⟩ 0 flatQuery).pos.x := by
    rw [hcore]; unfold ballBounds; norm_num
  have hx2 : (updateCore initialBall ⟨0, 0, 0⟩ 0 flatQuery).pos.x ≤ ballBounds := by
    rw [hcore]; unfold ballBounds; norm_num
  have hz1 : -ballBounds ≤ (updateCore initialBall ⟨0, 0, 0⟩ 0 flatQuery).pos.z := by
    rw [hcore]; unfold ballBounds; norm_num
  have hz2 : (updateCore initialBall ⟨0, 0, 0⟩ 0 flatQuery).pos.z ≤ ballBounds := by
    rw [hcore]; unfold ballBounds; norm_num
  have hg : (update initialBall ⟨0, 0, 0⟩ 0 flatQuery).grounded = true := by
    show (updateCore initialBall ⟨0, 0, 0⟩ 0 flatQuery).grounded = true
    rw [hcore]
  exact ⟨⟨hx1, hx2, hz1, hz2, hg⟩,
    C1_grounded_snap initialBall ⟨0, 0, 0⟩ 0 flatQuery hx1 hx2 hz1 hz2 hg⟩

/-- A ground query whose height grows linearly with x, exhibiting that
the grounded snap uses the pre-clamp coordinates. -/
noncomputable def rampQuery : GroundQuery := fun x _ => ⟨x, ⟨0, 1, 0⟩⟩

/-- A grounded ball resting just beyond the x bound (reachable, since
stumble and pushBack displace the position without clamping). -/
noncomputable def edgeBall : BallState :=
  ⟨⟨49, 49.5, 8⟩, ⟨0, 0, 0⟩, 0, true, 0.5, 0, 0, 0⟩

/-- Counterexample to claim C1 as stated: after this step the ball is
grounded, its x coordinate was clamped from 49 to 48, and position.y
(49.5) differs from groundQuery height at the final clamped coordinates
plus radius (48.5). -/
theorem C1_counterexample :
    (update edgeBall ⟨0, 0, 0⟩ 0 rampQuery).grounded = true ∧
    (update edgeBall ⟨0, 0, 0⟩ 0 rampQuery).pos.y ≠
      (rampQuery (update edgeBall ⟨0, 0, 0⟩ 0 rampQuery).pos.x
        (update edgeBall ⟨0, 0, 0⟩ 0 rampQuery).pos.z).height
        + (update edgeBall ⟨0, 0, 0⟩ 0 rampQuery).radius := by
  have hstep : update edgeBall ⟨0, 0, 0⟩ 0 rampQuery =
      ⟨⟨48, 49.5, 8⟩, ⟨0, 0, 0⟩, 0, true, 0.5, 0, 0, 0⟩ := by
    unfold update clampPlanar updateCore velAfterSlope velAfterInput wobbleStep
      moveSpeedOf edgeBall rampQuery gravity baseSpeed damping startRadius
      slopeMult ballBounds
    norm_num [Vec3.lengthSq, Vec3.smul, Vec3.dot, Real.exp_zero, min_def, max_def]
  rw [hstep]
  unfold rampQuery
  norm_num

/-- Counterexample to claim C2 as stated: with item.size = 3.0 and
actor.radius = 0.5 the size ratio is exactly 3.0, which is NOT strictly
greater than the hard-stop threshold 3, so Ball.stumble takes the soft
branch; with incoming velocity (-2, 0, 0) and push direction (1, 0, 0)
the post-stumble outward velocity component is -1.2, i.e. negative. -/
theorem C2_counterexample :
    ¬ (3 < (3 : ℝ) / (inwardBall.radius * 2)) ∧
    ((stumble inwardBall ⟨1, 0, 0⟩ 0.1 3 0 true).velocity).dot ⟨1, 0, 0⟩ < 0 := by
  have h4 : Real.sqrt 4 = 2 := by
    rw [show (4 : ℝ) = 2 ^ 2 by norm_num, Real.sqrt_sq (by norm_num : (0 : ℝ) ≤ 2)]
  constructor
  · unfold inwardBall
    norm_num
  · unfold stumble inwardBall
    norm_num [Vec3.norm, Vec3.lengthSq, Vec3.smul, Vec3.dot, h4]

/-- Claim C2 (amended): a hard stumble requires the size ratio to be
strictly greater than 3; for item.size = 3.1 and actor.radius = 0.5 the
ratio is 3.1 > 3, the hard branch is taken, and the actor ends with a
non-negative outward velocity component. -/
theorem C2_amended_hard_needs_strict_ratio :
    (3 < (3.1 : ℝ) / (inwardBall.radius * 2)) ∧
    0 ≤ ((stumble inwardBall ⟨1, 0, 0⟩ 0.1 3.1 0 true).velocity).dot ⟨1, 0, 0⟩ := by
  have h4 : Real.sqrt 4 = 2 := by
    rw [show (4 : ℝ) = 2 ^ 2 by norm_num, Real.sqrt_sq (by norm_num : (0 : ℝ) ≤ 2)]
  constructor
  · unfold inwardBall
    norm_num
  · unfold stumble inwardBall
    norm_num [Vec3.norm, Vec3.lengthSq, Vec3.smul, Vec3.dot, h4]

/-! ## RemoteBall network receive path (RemoteBall.ts updateFromNetwork)

Wire numbers are modelled as JsNum: an ordinary (rational-valued)
JavaScript number or NaN.  RemoteBall.updateFromNetwork performs no
arithmetic and no validation — it copies the payload fields wholesale
into the interpolation target — so this value-level model captures it
exactly. -/

/-- A JavaScript number as it arrives from the wire: NaN or a value. -/
inductive JsNum where
  | nan
  | val (q : ℚ)
deriving DecidableEq

/-- Wire payload of the ball topic (Network.ts BallState). -/
structure NetBallState where
  x : JsNum
  y : JsNum
  z : JsNum
  r : JsNum
  qx : JsNum
  qy : JsNum
  qz : JsNum
  qw : JsNum
  vx : JsNum
  vz : JsNum
deriving DecidableEq

/-- The interpolation-target state of the remote proxy ball that
updateFromNetwork writes: target position, target quaternion, target
radius and stored planar velocity. -/
structure RemoteTargets where
  targetPos : JsNum × JsNum × JsNum
  targetQuat : JsNum × JsNum × JsNum × JsNum
  targetRadius : JsNum
  velocity : JsNum × JsNum × JsNum
deriving DecidableEq

/-- RemoteBall.updateFromNetwork: unconditionally overwrites every
target field with the snapshot; the stored velocity y is the literal 0. -/
def updateFromNetwork (_prior : RemoteTargets) (s : NetBallState) : RemoteTargets :=
  { targetPos := (s.x, s.y, s.z)
    targetRadius := s.r
    targetQuat := (s.qx, s.qy, s.qz, s.qw)
    velocity := (s.vx, JsNum.val 0, s.vz) }

/-- Claim C8: receiving the same ball snapshot twice in a row is
idempotent — the interpolation target is an overwrite, not an
accumulator, so a second application of updateFromNetwork with the same
snapshot changes nothing. -/
theorem C8_snapshot_idempotent (prior : RemoteTargets) (s : NetBallState) :
    updateFromNetwork (updateFromNetwork prior s) s = updateFromNetwork prior s := rfl

/-- The interpolation target before the malformed receive. -/
def priorTargets : RemoteTargets :=
  ⟨(JsNum.val 0, JsNum.val 1, JsNum.val 8),
   (JsNum.val 0, JsNum.val 0, JsNum.val 0, JsNum.val 1),
   JsNum.val 1,
   (JsNum.val 0, JsNum.val 0, JsNum.val 0)⟩

/-- A ball snapshot whose x field is NaN and whose other fields are
ordinary numbers. -/
def nanSnapshot : NetBallState :=
  { x := JsNum.nan, y := JsNum.val 2, z := JsNum.val 3, r := JsNum.val 1,
    qx := JsNum.val 0, qy := JsNum.val 0, qz := JsNum.val 0, qw := JsNum.val 1,
    vx := JsNum.val 4, vz := JsNum.val 5 }

/-- Claim C3 is what the spec requires, but the code has no validation:
updateFromNetwork applies a snapshot containing NaN instead of ignoring
it — the target position changes and its x component becomes NaN, which
the integrator would then propagate. -/
theorem C3_nan_snapshot_is_applied :
    (updateFromNetwork priorTargets nanSnapshot).targetPos ≠ priorTargets.targetPos ∧
    (updateFromNetwork priorTargets nanSnapshot).targetPos.1 = JsNum.nan ∧
    updateFromNetwork priorTargets nanSnapshot ≠ priorTargets := by
  decide

/-! ## RemoteBall per-frame interpolation (RemoteBall.ts update)

Real-valued model of the displayed proxy.  The orientation slerp is
visual-only and not referenced by any claim, so it is not modelled. -/

/-- THREE.Vector3.lerp: this += (v - this) * alpha. -/
noncomputable def Vec3.lerp (v w : Vec3) (t : ℝ) : Vec3 := v + (w - v).smul t

/-- Kinematic state of the remote proxy ball. -/
structure RemoteBallState where
  pivotPos : Vec3
  targetPos : Vec3
  velocity : Vec3
  radius : ℝ
  targetRadius : ℝ

/-- RemoteBall.update: lerp the pivot toward the velocity-predicted
target with factor min(delta*15, 1), and ease the radius toward the
target radius with factor min(delta*10, 1). -/
noncomputable def remoteUpdate (s : RemoteBallState) (delta : ℝ) : RemoteBallState :=
  let predicted := s.targetPos + s.velocity.smul delta
  { s with
      pivotPos := s.pivotPos.lerp predicted (min (delta * 15) 1)
      radius := s.radius + (s.targetRadius - s.radius) * min (delta * 10) 1 }

/-- Claim C10: for every delta at least 0, RemoteBall.update moves the
displayed proxy to a convex combination of its previous position and
the predicted point target + velocity*delta (the lerp factor
min(delta*15, 1) lies in [0, 1]); hence one update never overshoots the
predicted target and never moves the proxy farther than the distance to
that target. -/
theorem C10_remote_update_bounded (s : RemoteBallState) (delta : ℝ)
    (hδ : 0 ≤ delta) :
    0 ≤ min (delta * 15) 1 ∧ min (delta * 15) 1 ≤ 1 ∧
    (remoteUpdate s delta).pivotPos =
      s.pivotPos.lerp (s.targetPos + s.velocity.smul delta) (min (delta * 15) 1) ∧
    ((s.targetPos + s.velocity.smul delta) - (remoteUpdate s delta).pivotPos).norm ≤
      ((s.targetPos + s.velocity.smul delta) - s.pivotPos).norm ∧
    ((remoteUpdate s delta).pivotPos - s.pivotPos).norm ≤
      ((s.targetPos + s.velocity.smul delta) - s.pivotPos).norm := by
  set t : ℝ := min (delta * 15) 1 with ht
  have ht0 : 0 ≤ t := le_min (by nlinarith) (by norm_num)
  have ht1 : t ≤ 1 := min_le_right _ _
  set P : Vec3 := s.targetPos + s.velocity.smul delta with hP
  have hnew : (remoteUpdate s delta).pivotPos = s.pivotPos.lerp P t := rfl
  have hback : P - (remoteUpdate s delta).pivotPos = (P - s.pivotPos).smul (1 - t) := by
    rw [hnew]
    ext <;> simp [Vec3.lerp, Vec3.smul] <;> ring
  have hfwd : (remoteUpdate s delta).pivotPos - s.pivotPos = (P - s.pivotPos).smul t := by
    rw [hnew]
    ext <;> simp [Vec3.lerp, Vec3.smul]
  refine ⟨ht0, ht1, hnew, ?_, ?_⟩
  · rw [hback, Vec3.norm_smul, abs_of_nonneg (by linarith)]
    exact mul_le_of_le_one_left (Vec3.norm_nonneg _) (by linarith)
  · rw [hfwd, Vec3.norm_smul, abs_of_nonneg ht0]
    exact mul_le_of_le_one_left (Vec3.norm_nonneg _) ht1

/-- A concrete remote proxy state: displayed at the origin area while
the latest snapshot places the ball at x = 10 moving along x. -/
noncomputable def sampleRemote : RemoteBallState :=
  ⟨⟨0, 0.5, 8⟩, ⟨10, 0.5, 8⟩, ⟨1, 0, 0⟩, 0.5, 0.5⟩

theorem C10_remote_update_bounded_witness :
    (0 : ℝ) ≤ 0.02 ∧
    (0 ≤ min ((0.02 : ℝ) * 15) 1 ∧ min ((0.02 : ℝ) * 15) 1 ≤ 1 ∧
     (remoteUpdate sampleRemote 0.02).pivotPos =
       sampleRemote.pivotPos.lerp
         (sampleRemote.targetPos + sampleRemote.velocity.smul 0.02)
         (min ((0.02 : ℝ) * 15) 1) ∧
     ((sampleRemote.targetPos + sampleRemote.velocity.smul 0.02) -
         (remoteUpdate sampleRemote 0.02).pivotPos).norm ≤
       ((sampleRemote.targetPos + sampleRemote.velocity.smul 0.02) -
         sampleRemote.pivotPos).norm ∧
     ((remoteUpdate sampleRemote 0.02).pivotPos - sampleRemote.pivotPos).norm ≤
       ((sampleRemote.targetPos + sampleRemote.velocity.smul 0.02) -
         sampleRemote.pivotPos).norm) := by
  have hδ : (0 : ℝ) ≤ 0.02 := by norm_num
  exact ⟨hδ, C10_remote_update_bounded sampleRemote 0.02 hδ⟩

/-! ## Remote collect events (Game.ts handleRemoteCollect)

Model of the collectible bookkeeping that handleRemoteCollect mutates:
the collected flag and the visual parent of each item, plus the local
peer role and whether a remote proxy ball exists.  Sound playback is an
external effect and is not modelled. -/

/-- Peer role. -/
inductive Role where
  | host
  | guest
deriving DecidableEq

/-- Wire payload of the collect topic; the wire field named `by` is
called sentBy here because `by` is a Lean keyword. -/
structure CollectEventMsg where
  id : ℕ
  sentBy : Role
deriving DecidableEq

/-- Who currently owns an item mesh in the scene graph. -/
inductive ItemParent where
  | world
  | localActor
  | remoteActor
deriving DecidableEq

/-- The replicated state of one collectible. -/
structure ItemState where
  collected : Bool
  parent : ItemParent
deriving DecidableEq

/-- The slice of Game state that handleRemoteCollect touches. -/
structure GameNetState where
  isHost : Bool
  hasRemoteBall : Bool
  collectibles : List ItemState
deriving DecidableEq

/-- The role of the local peer. -/
def myRole (g : GameNetState) : Role :=
  if g.isHost then Role.host else Role.guest

/-- Game.handleRemoteCollect: look the item up (out-of-range ids are
ignored); if the event carries our own role it is a no-op
acknowledgement; otherwise mark the item collected and, when a remote
proxy ball exists, reparent the item mesh to it. -/
def handleRemoteCollect (g : GameNetState) (e : CollectEventMsg) : GameNetState :=
  match g.collectibles.get? e.id with
  | none => g
  | some item =>
    let isLocalRole := (g.isHost && (e.sentBy == Role.host))
      || (!g.isHost && (e.sentBy == Role.guest))
    if isLocalRole then g
    else
      let item1 := { item with collected := true }
      let item2 :=
        if g.hasRemoteBall then { item1 with parent := ItemParent.remoteActor }
        else item1
      { g with collectibles := g.collectibles.set e.id item2 }

/-- Claim C7: a collect event carrying the own role of the receiving peer
leaves all collectible state unchanged (no-op acknowledgement); for any
other role, a valid item id not yet collected locally is marked
collected and reparented to the remote proxy actor. -/
theorem C7_collect_conflict_rule (g : GameNetState) (e : CollectEventMsg) :
    (e.sentBy = myRole g → handleRemoteCollect g e = g) ∧
    (∀ item : ItemState, e.sentBy ≠ myRole g →
      g.collectibles.get? e.id = some item → item.collected = false →
      g.hasRemoteBall = true →
      (handleRemoteCollect g e).collectibles.get? e.id =
        some ⟨true, ItemParent.remoteActor⟩) := by
  constructor
  · intro hrole
    unfold handleRemoteCollect
    cases hget : g.collectibles.get? e.id with
    | none => rfl
    | some item =>
      have hlocal : ((g.isHost && (e.sentBy == Role.host))
          || (!g.isHost && (e.sentBy == Role.guest))) = true := by
        cases hh : g.isHost <;> cases hs : e.sentBy <;> simp_all [myRole]
      simp [hlocal]
  · intro item hne hget hcol hrb
    unfold handleRemoteCollect
    have hlocal : ((g.isHost && (e.sentBy == Role.host))
        || (!g.isHost && (e.sentBy == Role.guest))) = false := by
      cases hh : g.isHost <;> cases hs : e.sentBy <;> simp_all [myRole]
    obtain ⟨hlen, -⟩ := List.get?_eq_some.mp hget
    rw [hget]
    simp only [hlocal, hrb]
    have hset := List.getElem?_set_eq_of_lt
      (⟨true, ItemParent.remoteActor⟩ : ItemState) hlen
    simpa [List.get?_eq_getElem?] using hset

/-- A guest session with a remote proxy present and eight uncollected
items (ids 0 through 7). -/
def guestGame : GameNetState :=
  ⟨false, true, List.replicate 8 ⟨false, ItemParent.world⟩⟩

theorem C7_collect_conflict_rule_witness :
    ((CollectEventMsg.mk 3 Role.guest).sentBy = myRole guestGame ∧
      handleRemoteCollect guestGame ⟨3, Role.guest⟩ = guestGame) ∧
    ((CollectEventMsg.mk 7 Role.host).sentBy ≠ myRole guestGame ∧
      guestGame.collectibles.get? 7 = some ⟨false, ItemParent.world⟩ ∧
      guestGame.hasRemoteBall = true ∧
      (handleRemoteCollect guestGame ⟨7, Role.host⟩).collectibles.get? 7 =
        some ⟨true, ItemParent.remoteActor⟩) := by
  have h1 : (CollectEventMsg.mk 3 Role.guest).sentBy = myRole guestGame := by decide
  have h2 : (CollectEventMsg.mk 7 Role.host).sentBy ≠ myRole guestGame := by decide
  have h3 : guestGame.collectibles.get? 7 = some ⟨false, ItemParent.world⟩ := by decide
  have h4 : ((⟨false, ItemParent.world⟩ : ItemState)).collected = false := by decide
  have h5 : guestGame.hasRemoteBall = true := by decide
  exact ⟨⟨h1, (C7_collect_conflict_rule guestGame ⟨3, Role.guest⟩).1 h1⟩,
    ⟨h2, h3, h5,
      (C7_collect_conflict_rule guestGame ⟨7, Role.host⟩).2
        ⟨false, ItemParent.world⟩ h2 h3 h4 h5⟩⟩

end Snowball
